import Mathlib

/-!
Verification of the DigiFarmer recommendation orchestration core
(`backend/models/combined_crop_soil_recommender.py`).

Shallow embedding conventions:
* Python numbers are modelled as `ℚ`.  Every numeric literal appearing in
  the catalog is a dyadic rational (integers and halves), and the only
  arithmetic the embedded code performs on them is addition and division
  by two, which is exact in IEEE double precision for these values, so the
  rational model agrees with the float semantics of the source on every
  value the claims mention.
* Python dicts are modelled as association lists (`List (String × _)`);
  insertion order of the literals matches the source, lookups use
  `List.lookup`, and dict truthiness (`if custom_params:`) is modelled by
  matching `some (p :: ps)` (a non-`None`, non-empty dict).
* The two external models are black boxes.  The soil classifier outcome is
  an explicit input `Option String × ℚ` (its `(None, 0.0)` failure shape
  included), and the crop classifier outcome is an explicit input
  `Option (List (String × ℚ))`: `some dist` models
  `zip(crop_encoder.classes_, crop_model.predict_proba(x)[0])`, `none`
  models a raised error.
* `try/except` blocks that return a fallback value are modelled by making
  each fallible step return `Option` and taking the fallback on `none`.
* `recommendations.sort(key=lambda x: x["score"], reverse=True)` is a
  stable descending sort by score.  A stable sort by a total preorder is a
  unique function of its input, so `List.insertionSort` over the
  descending-score relation (which keeps ties in input order exactly as a
  stable sort does) computes the same list as Python's stable sort.
* Python slicing `l[:n]` (including negative `n`) is modelled by `pyTake`.
-/

namespace DigiFarmer

/-- The eight soil classes of the image classifier (source lines 29-30). -/
def soil_classes : List String :=
  ["Alluvial Soil", "Black Soil", "Cinder Soil", "Clay Soil",
   "Laterite Soil", "Peat Soil", "Red Soil", "Yellow Soil"]

/-- Soil-to-crop mapping, `self.soil_crop_mapping` (source lines 37-46). -/
def soil_crop_mapping : List (String × List String) :=
  [("Alluvial Soil", ["rice", "wheat", "sugarcane", "cotton", "jute", "maize", "pulses"]),
   ("Black Soil", ["cotton", "sugarcane", "wheat", "jowar", "sunflower", "groundnut", "pulses"]),
   ("Cinder Soil", ["coffee", "tea", "cardamom", "pepper", "coconut", "cashew"]),
   ("Clay Soil", ["rice", "wheat", "barley", "oats", "potatoes", "onions"]),
   ("Laterite Soil", ["cashew", "coconut", "rubber", "tea", "coffee", "cardamom"]),
   ("Peat Soil", ["rice", "vegetables", "fruits", "flowers", "herbs"]),
   ("Red Soil", ["groundnut", "potato", "rice", "ragi", "tobacco", "oilseeds", "pulses"]),
   ("Yellow Soil", ["wheat", "barley", "potato", "rice", "maize", "pulses"])]

/-- Environmental parameter ranges per soil type,
`self.soil_environmental_ranges` (source lines 49-82).  Each entry keeps the
source's key order N, P, K, temperature, humidity, pH, rainfall. -/
def soil_environmental_ranges : List (String × List (String × ℚ × ℚ)) :=
  [("Alluvial Soil",
    [("N", 50, 100), ("P", 30, 60), ("K", 30, 60),
     ("temperature", 20, 35), ("humidity", 60, 90), ("pH", 6.0, 8.0), ("rainfall", 100, 300)]),
   ("Black Soil",
    [("N", 40, 80), ("P", 20, 50), ("K", 40, 80),
     ("temperature", 25, 40), ("humidity", 50, 80), ("pH", 7.0, 8.5), ("rainfall", 50, 200)]),
   ("Cinder Soil",
    [("N", 30, 60), ("P", 15, 40), ("K", 20, 50),
     ("temperature", 15, 30), ("humidity", 70, 95), ("pH", 5.5, 7.0), ("rainfall", 200, 400)]),
   ("Clay Soil",
    [("N", 60, 100), ("P", 40, 70), ("K", 50, 90),
     ("temperature", 15, 30), ("humidity", 60, 85), ("pH", 6.5, 8.0), ("rainfall", 100, 250)]),
   ("Laterite Soil",
    [("N", 20, 50), ("P", 10, 30), ("K", 15, 40),
     ("temperature", 20, 35), ("humidity", 60, 90), ("pH", 5.0, 6.5), ("rainfall", 150, 300)]),
   ("Peat Soil",
    [("N", 80, 120), ("P", 30, 60), ("K", 20, 50),
     ("temperature", 10, 25), ("humidity", 70, 95), ("pH", 4.0, 6.0), ("rainfall", 200, 500)]),
   ("Red Soil",
    [("N", 30, 70), ("P", 20, 50), ("K", 25, 60),
     ("temperature", 20, 35), ("humidity", 50, 80), ("pH", 5.5, 7.5), ("rainfall", 50, 200)]),
   ("Yellow Soil",
    [("N", 40, 80), ("P", 25, 55), ("K", 30, 70),
     ("temperature", 15, 30), ("humidity", 60, 85), ("pH", 6.0, 7.5), ("rainfall", 100, 300)])]

/-- The seven environmental variables, in the fixed order the source uses
both as the key order of every range dict and as the feature order of
`crop_input` (source lines 156-164). -/
def requiredVariables : List String :=
  ["N", "P", "K", "temperature", "humidity", "pH", "rainfall"]

/-- Default parameter synthesis, the no-override branch of
`get_environmental_parameters` (source lines 128-137): look the soil type up
in `soil_environmental_ranges` with `{}` as the `.get` fallback, then map
each range to its arithmetic midpoint `(min_val + max_val) / 2`. -/
def defaultEnvParams (soil_type : String) : List (String × ℚ) :=
  ((soil_environmental_ranges.lookup soil_type).getD []).map
    (fun r => (r.1, (r.2.1 + r.2.2) / 2))

/-- `get_environmental_parameters(soil_type, custom_params)` (source lines
114-137).  `if custom_params:` is Python truthiness: the custom parameters
are returned verbatim exactly when they are not `None` and not the empty
dict; otherwise the catalog defaults are synthesized. -/
def get_environmental_parameters (soil_type : String)
    (custom_params : Option (List (String × ℚ))) : List (String × ℚ) :=
  match custom_params with
  | some (p :: ps) => p :: ps
  | _ => defaultEnvParams soil_type

/-- The feature vector construction `crop_input = np.array([[...]])`
(source lines 156-164): the seven dict accesses, in the source's order.  A
missing key is a Python `KeyError`, modelled by `none`. -/
def crop_input (env : List (String × ℚ)) : Option (List ℚ) := do
  let n ← env.lookup "N"
  let p ← env.lookup "P"
  let k ← env.lookup "K"
  let t ← env.lookup "temperature"
  let h ← env.lookup "humidity"
  let ph ← env.lookup "pH"
  let r ← env.lookup "rainfall"
  some [n, p, k, t, h, ph, r]

/-- One recommendation entry, the dict appended at source lines 180-185. -/
structure CropRecommendation where
  crop : String
  score : ℚ
  soil_suitable : Bool
  original_probability : ℚ
deriving DecidableEq

/-- `soil_specific_crops = self.soil_crop_mapping.get(soil_type, [])`
(source line 171). -/
def suitableCropsOf (soil_type : String) : List String :=
  (soil_crop_mapping.lookup soil_type).getD []

/-- The score-adjustment loop (source lines 174-185): for each
`(crop_name, prob)` of the distribution, `soil_boost = 1.5` when the crop is
in the soil's suitable list else `1.0`, `adjusted_score = prob * soil_boost`. -/
def boostedRecommendations (soil_type : String)
    (dist : List (String × ℚ)) : List CropRecommendation :=
  let soil_specific_crops := suitableCropsOf soil_type
  dist.map (fun cp =>
    let soil_boost : ℚ := if cp.1 ∈ soil_specific_crops then 3 / 2 else 1
    { crop := cp.1,
      score := cp.2 * soil_boost,
      soil_suitable := decide (cp.1 ∈ soil_specific_crops),
      original_probability := cp.2 })

/-- The sort key of `recommendations.sort(key=..., reverse=True)` (source
line 188): descending by adjusted score. -/
def scoreDesc : CropRecommendation → CropRecommendation → Prop :=
  fun a b => b.score ≤ a.score

instance : DecidableRel scoreDesc :=
  fun a b => inferInstanceAs (Decidable (b.score ≤ a.score))

/-- Python slicing `l[:n]` for an arbitrary integer `n` (source line 190
uses `recommendations[:top_n]` with no validation of `top_n`): a
non-negative `n` keeps the first `n` elements, a negative `n` drops the
last `|n|` elements. -/
def pyTake (n : ℤ) (l : List α) : List α :=
  if 0 ≤ n then l.take n.toNat else l.take (l.length - (-n).toNat)

/-- `recommend_crops(soil_type, environmental_params, top_n)` (source lines
139-194).  `predictions` is the outcome of the crop-classifier invocation
(`none` models a raised error).  The body's `try/except` returns `[]` on
any failure: a missing parameter key (`crop_input` is `none`) or a
classifier error.  Otherwise the boosted entries are stable-sorted by
descending score and sliced to `top_n`. -/
def recommend_crops (predictions : Option (List (String × ℚ)))
    (soil_type : String) (environmental_params : Option (List (String × ℚ)))
    (top_n : ℤ) : List CropRecommendation :=
  match crop_input (get_environmental_parameters soil_type environmental_params),
      predictions with
  | some _, some dist =>
      pyTake top_n (List.insertionSort scoreDesc (boostedRecommendations soil_type dist))
  | _, _ => []

/-- `recommend_crops` invoked without `top_n`, whose Python default is 5
(source line 139). -/
def recommend_crops_default (predictions : Option (List (String × ℚ)))
    (soil_type : String)
    (environmental_params : Option (List (String × ℚ))) : List CropRecommendation :=
  recommend_crops predictions soil_type environmental_params 5

/-- The result dict of `get_comprehensive_recommendation` (source lines
211-231).  The error dict (lines 212-217) carries no
`environmental_parameters` and no `soil_specific_crops` keys, modelled by
`none` and `[]`. -/
structure ComprehensiveResult where
  error : Option String
  soil_type : Option String
  soil_confidence : ℚ
  environmental_parameters : Option (List (String × ℚ))
  recommendations : List CropRecommendation
  soil_specific_crops : List String
deriving DecidableEq

/-- `get_comprehensive_recommendation(image_path, custom_env_params, top_n)`
(source lines 196-231).  `classify_result` is the outcome of
`classify_soil` (source lines 84-112), whose failure shape is `(None, 0.0)`.
On failure the error dict is returned with confidence `0.0` and no
recommendations; otherwise parameters are resolved, passed to
`recommend_crops`, and the full report is assembled. -/
def get_comprehensive_recommendation (classify_result : Option String × ℚ)
    (predictions : Option (List (String × ℚ)))
    (custom_env_params : Option (List (String × ℚ)))
    (top_n : ℤ) : ComprehensiveResult :=
  match classify_result with
  | (none, _) =>
      { error := some "Failed to classify soil type",
        soil_type := none,
        soil_confidence := 0,
        environmental_parameters := none,
        recommendations := [],
        soil_specific_crops := [] }
  | (some st, conf) =>
      let env_params := get_environmental_parameters st custom_env_params
      { error := none,
        soil_type := some st,
        soil_confidence := conf,
        environmental_parameters := some env_params,
        recommendations := recommend_crops predictions st (some env_params) top_n,
        soil_specific_crops := (soil_crop_mapping.lookup st).getD [] }

/-- Claim C7: when the soil classifier reports failure with `(None, 0.0)`,
the orchestrator returns an error result whose soil category is absent,
whose confidence is `0.0`, and whose recommendation list is empty; the
embedded orchestrator is a total function, so no unhandled fault escapes. -/
theorem soilFailure_reported_error_result
    (predictions : Option (List (String × ℚ)))
    (custom : Option (List (String × ℚ))) (top_n : ℤ) :
    (get_comprehensive_recommendation (none, 0) predictions custom top_n).error.isSome = true ∧
    (get_comprehensive_recommendation (none, 0) predictions custom top_n).soil_type = none ∧
    (get_comprehensive_recommendation (none, 0) predictions custom top_n).soil_confidence = 0 ∧
    (get_comprehensive_recommendation (none, 0) predictions custom top_n).recommendations = [] :=
  ⟨rfl, rfl, rfl, rfl⟩

/-- Claim C9: an override set containing all seven required variables is
returned by parameter resolution exactly as supplied, for every soil
category. -/
theorem resolve_full_overrides_identity (s : String) (ps : List (String × ℚ))
    (hN : (ps.lookup "N").isSome = true)
    (hP : (ps.lookup "P").isSome = true)
    (hK : (ps.lookup "K").isSome = true)
    (hT : (ps.lookup "temperature").isSome = true)
    (hH : (ps.lookup "humidity").isSome = true)
    (hPH : (ps.lookup "pH").isSome = true)
    (hR : (ps.lookup "rainfall").isSome = true) :
    get_environmental_parameters s (some ps) = ps := by
  cases ps with
  | nil => simp [List.lookup] at hN
  | cons p ps2 => rfl

/-- Concrete instance for `resolve_full_overrides_identity`: the complete
override set of spec Scenario C is returned unchanged. -/
theorem resolve_full_overrides_identity_witness :
    get_environmental_parameters "Alluvial Soil"
      (some [("N", 75), ("P", 45), ("K", 50), ("temperature", 28),
             ("humidity", 75), ("pH", 6.8), ("rainfall", 180)]) =
      [("N", 75), ("P", 45), ("K", 50), ("temperature", 28),
       ("humidity", 75), ("pH", 6.8), ("rainfall", 180)] :=
  resolve_full_overrides_identity _ _ rfl rfl rfl rfl rfl rfl rfl

/-- Claim C10: for every soil category known to the catalog, an empty
override mapping is falsy and hence treated exactly like passing no
overrides: the result is the full seven-variable default set, not the
empty mapping. -/
theorem empty_overrides_treated_as_absent :
    ∀ s ∈ soil_environmental_ranges.map Prod.fst,
      get_environmental_parameters s (some []) = get_environmental_parameters s none ∧
      (get_environmental_parameters s (some [])).map Prod.fst = requiredVariables := by
  intro s hs
  refine ⟨rfl, ?_⟩
  fin_cases hs <;> rfl

/-- Concrete instance for `empty_overrides_treated_as_absent` at
`"Alluvial Soil"`. -/
theorem empty_overrides_treated_as_absent_witness :
    get_environmental_parameters "Alluvial Soil" (some []) =
        get_environmental_parameters "Alluvial Soil" none ∧
      (get_environmental_parameters "Alluvial Soil" (some [])).map Prod.fst =
        requiredVariables :=
  empty_overrides_treated_as_absent "Alluvial Soil" (by decide)

/-- Claim C6: a complete override set is forwarded unchanged into the crop
classifier feature vector, in the fixed order
N, P, K, temperature, humidity, pH, rainfall. -/
theorem overrides_forwarded_in_feature_order (s : String) (ps : List (String × ℚ))
    (vN vP vK vT vH vPH vR : ℚ)
    (hN : ps.lookup "N" = some vN)
    (hP : ps.lookup "P" = some vP)
    (hK : ps.lookup "K" = some vK)
    (hT : ps.lookup "temperature" = some vT)
    (hH : ps.lookup "humidity" = some vH)
    (hPH : ps.lookup "pH" = some vPH)
    (hR : ps.lookup "rainfall" = some vR) :
    crop_input (get_environmental_parameters s (some ps)) =
      some [vN, vP, vK, vT, vH, vPH, vR] := by
  have hps : get_environmental_parameters s (some ps) = ps := by
    cases ps with
    | nil => simp [List.lookup] at hN
    | cons p ps2 => rfl
  rw [hps]
  simp [crop_input, hN, hP, hK, hT, hH, hPH, hR]

/-- Concrete instance for `overrides_forwarded_in_feature_order`: the spec
Scenario C override set for `"Alluvial Soil"` yields the feature vector
`[75, 45, 50, 28, 75, 6.8, 180]`. -/
theorem overrides_forwarded_in_feature_order_witness :
    crop_input (get_environmental_parameters "Alluvial Soil"
      (some [("N", 75), ("P", 45), ("K", 50), ("temperature", 28),
             ("humidity", 75), ("pH", 6.8), ("rainfall", 180)])) =
      some [75, 45, 50, 28, 75, 6.8, 180] :=
  overrides_forwarded_in_feature_order _ _ _ _ _ _ _ _ _
    rfl rfl rfl rfl rfl rfl rfl

/-- Every entry of the synthesized default set is the arithmetic midpoint
of the corresponding catalog range. -/
theorem mem_defaultEnvParams_midpoint (s : String) (pr : String × ℚ)
    (h : pr ∈ defaultEnvParams s) :
    ∃ rg ∈ (soil_environmental_ranges.lookup s).getD [],
      rg.1 = pr.1 ∧ pr.2 = (rg.2.1 + rg.2.2) / 2 := by
  simp only [defaultEnvParams, List.mem_map] at h
  obtain ⟨rg, hrg, hEq⟩ := h
  exact ⟨rg, hrg, by rw [← hEq], by rw [← hEq]⟩

/-- Claim C3: for every soil category in the catalog, resolution with no
overrides returns exactly the seven required variables, in the fixed
order, each equal to the midpoint `(min + max) / 2` of that variable's
catalog range. -/
theorem resolve_defaults_are_midpoints :
    ∀ s ∈ soil_environmental_ranges.map Prod.fst,
      (get_environmental_parameters s none).map Prod.fst = requiredVariables ∧
      ∀ pr ∈ get_environmental_parameters s none,
        ∃ rg ∈ (soil_environmental_ranges.lookup s).getD [],
          rg.1 = pr.1 ∧ pr.2 = (rg.2.1 + rg.2.2) / 2 := by
  intro s hs
  constructor
  · fin_cases hs <;> rfl
  · intro pr hpr
    exact mem_defaultEnvParams_midpoint s pr hpr

/-- Concrete instance for `resolve_defaults_are_midpoints` at
`"Alluvial Soil"`. -/
theorem resolve_defaults_are_midpoints_witness :
    "Alluvial Soil" ∈ soil_environmental_ranges.map Prod.fst ∧
      ((get_environmental_parameters "Alluvial Soil" none).map Prod.fst =
          requiredVariables ∧
        ∀ pr ∈ get_environmental_parameters "Alluvial Soil" none,
          ∃ rg ∈ (soil_environmental_ranges.lookup "Alluvial Soil").getD [],
            rg.1 = pr.1 ∧ pr.2 = (rg.2.1 + rg.2.2) / 2) :=
  ⟨by decide, resolve_defaults_are_midpoints "Alluvial Soil" (by decide)⟩

/-- Claim C4: each crop of the distribution yields one recommendation whose
adjusted score is its probability times exactly `1.5` when the crop is in
the soil's suitable list (flag true), and its unchanged probability
otherwise (flag false); every entry that survives sorting and truncation in
the final ranking output still satisfies `score = probability * boost`, so
no renormalization is applied after boosting. -/
theorem boost_invariant (s : String) (dist : List (String × ℚ))
    (env : Option (List (String × ℚ))) (top_n : ℤ) :
    (∀ cp ∈ dist, ∃ r ∈ boostedRecommendations s dist,
        r.crop = cp.1 ∧ r.original_probability = cp.2 ∧
        (cp.1 ∈ suitableCropsOf s →
          r.score = cp.2 * (3 / 2) ∧ r.soil_suitable = true) ∧
        (cp.1 ∉ suitableCropsOf s →
          r.score = cp.2 ∧ r.soil_suitable = false)) ∧
    (∀ r ∈ recommend_crops (some dist) s env top_n,
        r.score = r.original_probability *
          (if r.crop ∈ suitableCropsOf s then 3 / 2 else 1) ∧
        (r.soil_suitable = true ↔ r.crop ∈ suitableCropsOf s)) := by
  have hmem : ∀ r ∈ boostedRecommendations s dist,
      r.score = r.original_probability *
        (if r.crop ∈ suitableCropsOf s then 3 / 2 else 1) ∧
      (r.soil_suitable = true ↔ r.crop ∈ suitableCropsOf s) := by
    intro r hr
    simp only [boostedRecommendations, List.mem_map] at hr
    obtain ⟨cp, _, hEq⟩ := hr
    subst hEq
    simp
  constructor
  · intro cp hcp
    refine ⟨_, List.mem_map_of_mem _ hcp, rfl, rfl, ?_, ?_⟩
    · intro hin
      simp [hin]
    · intro hout
      simp [hout]
  · intro r hr
    unfold recommend_crops at hr
    split at hr
    next heq1 heq2 =>
      injection heq2 with h3
      subst h3
      have h1 : r ∈ List.insertionSort scoreDesc (boostedRecommendations s dist) := by
        unfold pyTake at hr
        split at hr <;> exact List.take_subset _ _ hr
      exact hmem r (((List.perm_insertionSort scoreDesc _).mem_iff).mp h1)
    next => simp at hr

/-- Concrete instance for `boost_invariant` with a one-crop distribution on
`"Alluvial Soil"`. -/
theorem boost_invariant_witness :
    (∀ cp ∈ ([("rice", 1/2)] : List (String × ℚ)),
        ∃ r ∈ boostedRecommendations "Alluvial Soil" [("rice", 1/2)],
        r.crop = cp.1 ∧ r.original_probability = cp.2 ∧
        (cp.1 ∈ suitableCropsOf "Alluvial Soil" →
          r.score = cp.2 * (3 / 2) ∧ r.soil_suitable = true) ∧
        (cp.1 ∉ suitableCropsOf "Alluvial Soil" →
          r.score = cp.2 ∧ r.soil_suitable = false)) ∧
    (∀ r ∈ recommend_crops (some [("rice", 1/2)]) "Alluvial Soil" none 5,
        r.score = r.original_probability *
          (if r.crop ∈ suitableCropsOf "Alluvial Soil" then 3 / 2 else 1) ∧
        (r.soil_suitable = true ↔ r.crop ∈ suitableCropsOf "Alluvial Soil")) :=
  boost_invariant "Alluvial Soil" [("rice", 1/2)] none 5

/-- Truncation bound of Python slicing for a positive count. -/
theorem pyTake_length_le {α : Type} (n : ℤ) (h : 0 < n) (l : List α) :
    (pyTake n l).length ≤ n.toNat := by
  rw [pyTake, if_pos (le_of_lt h), List.length_take]
  exact min_le_left _ _

/-- Python slicing always yields a sublist. -/
theorem pyTake_sublist {α : Type} (n : ℤ) (l : List α) :
    List.Sublist (pyTake n l) l := by
  unfold pyTake
  split <;> exact List.take_sublist _ _

/-- The stable sort used by the ranking engine is sorted by descending
adjusted score. -/
theorem insertionSort_scoreDesc_sorted (l : List CropRecommendation) :
    (List.insertionSort scoreDesc l).Pairwise (fun a b => b.score ≤ a.score) := by
  haveI : IsTotal CropRecommendation scoreDesc :=
    ⟨fun a b => le_total b.score a.score⟩
  haveI : IsTrans CropRecommendation scoreDesc :=
    ⟨fun a b c hab hbc => le_trans hbc hab⟩
  exact List.sorted_insertionSort scoreDesc l

/-- Claim C5: for a positive `top_n`, the ranking operation returns at most
`top_n` recommendations, sorted by descending adjusted score. -/
theorem recommend_sorted_and_truncated
    (predictions : Option (List (String × ℚ))) (s : String)
    (env : Option (List (String × ℚ))) (top_n : ℤ) (h : 0 < top_n) :
    (recommend_crops predictions s env top_n).length ≤ top_n.toNat ∧
    (recommend_crops predictions s env top_n).Pairwise
      (fun a b => b.score ≤ a.score) := by
  unfold recommend_crops
  split
  next =>
    exact ⟨pyTake_length_le _ h _,
      List.Pairwise.sublist (pyTake_sublist _ _) (insertionSort_scoreDesc_sorted _)⟩
  next =>
    simp

/-- Concrete instance for `recommend_sorted_and_truncated` with
`top_n = 5`. -/
theorem recommend_sorted_and_truncated_witness :
    (recommend_crops (some [("rice", 1/2)]) "Alluvial Soil" none 5).length ≤
        (5 : ℤ).toNat ∧
      (recommend_crops (some [("rice", 1/2)]) "Alluvial Soil" none 5).Pairwise
        (fun a b => b.score ≤ a.score) :=
  recommend_sorted_and_truncated _ _ _ _ (by decide)

/-- Claim C1 counterexample: for the unrecognized soil category
`"Sandy Soil"`, parameter resolution with no overrides returns the silent
empty parameter set (no error of any kind is produced — the function's
codomain has no error outcome), and the ranking engine consumes that empty
set and silently returns an empty recommendation list. -/
theorem unknown_soil_silently_empty :
    get_environmental_parameters "Sandy Soil" none = [] ∧
    recommend_crops (some [("rice", 1/2)]) "Sandy Soil" none 5 = [] :=
  ⟨rfl, rfl⟩

/-- Claim C1 amended: for every soil category not in the catalog,
resolution with no overrides returns the empty parameter set without
raising any error, and the ranking engine then swallows the resulting
missing-key failure and returns an empty recommendation list. -/
theorem unknown_soil_empty_params_and_recs (s : String)
    (hs : soil_environmental_ranges.lookup s = none)
    (predictions : Option (List (String × ℚ))) (top_n : ℤ) :
    get_environmental_parameters s none = [] ∧
    recommend_crops predictions s none top_n = [] := by
  have h0 : get_environmental_parameters s none = [] := by
    simp [get_environmental_parameters, defaultEnvParams, hs]
  have h2 : crop_input (get_environmental_parameters s none) = none := by
    rw [h0]
    rfl
  refine ⟨h0, ?_⟩
  unfold recommend_crops
  rw [h2]

/-- Concrete instance for `unknown_soil_empty_params_and_recs` at
`"Sandy Soil"`. -/
theorem unknown_soil_empty_params_and_recs_witness :
    get_environmental_parameters "Sandy Soil" none = [] ∧
    recommend_crops (some [("rice", 1/2), ("wheat", 1/2)]) "Sandy Soil" none 5 = [] :=
  unknown_soil_empty_params_and_recs "Sandy Soil" rfl _ _

/-- Claim C2 counterexample: when the crop classifier invocation fails
(`predictions = none`) after a successful soil classification, the
orchestrator does not fail the request: it returns a success-shaped result
(`error` absent, soil category present) whose recommendation list is
empty. -/
theorem classifier_error_reports_success_with_empty_list :
    (get_comprehensive_recommendation (some "Alluvial Soil", 90) none none 5).error =
        none ∧
    (get_comprehensive_recommendation (some "Alluvial Soil", 90) none none 5).soil_type =
        some "Alluvial Soil" ∧
    (get_comprehensive_recommendation
        (some "Alluvial Soil", 90) none none 5).recommendations = [] :=
  ⟨rfl, rfl, rfl⟩

/-- Claim C2 amended: an error of the crop classifier is caught inside the
ranking operation, which returns an empty list instead of surfacing any
error; the orchestrator then reports a successful result (no error field)
carrying an empty recommendation list, for every soil category, confidence,
override set and `top_n`. -/
theorem classifier_error_caught_empty_result (st : String) (conf : ℚ)
    (custom : Option (List (String × ℚ))) (top_n : ℤ) :
    recommend_crops none st custom top_n = [] ∧
    (get_comprehensive_recommendation (some st, conf) none custom top_n).error = none ∧
    (get_comprehensive_recommendation
        (some st, conf) none custom top_n).recommendations = [] := by
  have h1 : ∀ env : Option (List (String × ℚ)),
      recommend_crops none st env top_n = [] := by
    intro env
    unfold recommend_crops
    split
    next heq1 heq2 => cases heq2
    next => rfl
  exact ⟨h1 custom, rfl, h1 _⟩

/-- Claim C8 counterexample: a negative `top_n` is neither rejected nor
clamped; it is processed as-is with Python slice semantics.  With a
three-crop distribution and `top_n = -1`, the ranking returns the first
two of the three sorted entries (the slice `[:-1]`), which is the behavior
of neither rejection (no error, non-empty result), clamping to zero (result
not empty) nor clamping to one (two entries, not one). -/
theorem negative_topn_sliced_not_validated :
    recommend_crops (some [("rice", 1/2), ("wheat", 3/10), ("cotton", 1/5)])
        "Alluvial Soil" none (-1) =
      [{ crop := "rice", score := 3/4, soil_suitable := true,
         original_probability := 1/2 },
       { crop := "wheat", score := 9/20, soil_suitable := true,
         original_probability := 3/10 }] := by
  show pyTake (-1) (List.insertionSort scoreDesc (boostedRecommendations "Alluvial Soil"
    [("rice", 1/2), ("wheat", 3/10), ("cotton", 1/5)])) = _
  have hb : boostedRecommendations "Alluvial Soil"
      [("rice", 1/2), ("wheat", 3/10), ("cotton", 1/5)] =
      [{ crop := "rice", score := 1/2 * (3/2), soil_suitable := true,
         original_probability := 1/2 },
       { crop := "wheat", score := 3/10 * (3/2), soil_suitable := true,
         original_probability := 3/10 },
       { crop := "cotton", score := 1/5 * (3/2), soil_suitable := true,
         original_probability := 1/5 }] := rfl
  rw [hb]
  norm_num [List.insertionSort, List.orderedInsert, scoreDesc, pyTake]

/-- Claim C8 amended: `top_n` defaults to 5, and a non-positive `top_n` is
not validated: it is applied to the sorted list with Python slice
semantics, so a negative `top_n` returns the full sorted list minus its
last `|top_n|` entries. -/
theorem topn_default_and_slice_semantics
    (dist : List (String × ℚ)) (s : String)
    (env : Option (List (String × ℚ))) (top_n : ℤ) (hneg : top_n < 0)
    (hc : (crop_input (get_environmental_parameters s env)).isSome = true) :
    recommend_crops_default (some dist) s env = recommend_crops (some dist) s env 5 ∧
    (recommend_crops (some dist) s env top_n).length =
      dist.length - (-top_n).toNat := by
  refine ⟨rfl, ?_⟩
  obtain ⟨v, hv⟩ := Option.isSome_iff_exists.mp hc
  have hL : (List.insertionSort scoreDesc (boostedRecommendations s dist)).length =
      dist.length := by
    rw [(List.perm_insertionSort scoreDesc _).length_eq]
    simp [boostedRecommendations]
  unfold recommend_crops
  rw [hv]
  show (pyTake top_n (List.insertionSort scoreDesc
      (boostedRecommendations s dist))).length = dist.length - (-top_n).toNat
  rw [pyTake, if_neg (by omega : ¬ (0 : ℤ) ≤ top_n), List.length_take, hL]
  exact min_eq_left (Nat.sub_le _ _)

/-- Concrete instance for `topn_default_and_slice_semantics` with a
three-crop distribution and `top_n = -1`. -/
theorem topn_default_and_slice_semantics_witness :
    recommend_crops_default (some [("rice", 1/2), ("wheat", 3/10), ("cotton", 1/5)])
        "Alluvial Soil" none =
      recommend_crops (some [("rice", 1/2), ("wheat", 3/10), ("cotton", 1/5)])
        "Alluvial Soil" none 5 ∧
    (recommend_crops (some [("rice", 1/2), ("wheat", 3/10), ("cotton", 1/5)])
        "Alluvial Soil" none (-1)).length = 2 :=
  topn_default_and_slice_semantics _ _ _ _ (by decide) rfl

end DigiFarmer
